import Mathlib

/-!
Shallow embedding of the greyhound session bindings
(`src/session/bindings.cpp`) and the entwine read query
(`session-handler/addon/read-queries/entwine.cpp`), together with the
spec-described streaming loop, buffer pool and lifecycle model for the
parts of the engine whose sources are not in the repository snapshot.
-/

/-- Type `Status`: numeric code plus message crossing the async boundary.
Modelled from the spec: 0 = success, 4xx = client error, 5xx = internal.
The source constructs `Status(code, msg)` and queries `status.ok()`. -/
structure Status where
  code : Nat
  message : String
deriving DecidableEq, Repr

/-- Predicate `Status::ok()`: success is code 0. -/
def Status.isOk (s : Status) : Bool := s.code == 0

/-- The default (success) status a command starts with. -/
def okStatus : Status := ⟨0, ""⟩

/-- A 400-class (client error) status code. -/
def clientClass (c : Nat) : Prop := 400 ≤ c ∧ c < 500

/-- A 500-class (internal error) status code. -/
def internalClass (c : Nat) : Prop := 500 ≤ c ∧ c < 600

instance : DecidablePred clientClass := fun c => by
  unfold clientClass; infer_instance

instance : DecidablePred internalClass := fun c => by
  unfold internalClass; infer_instance

/-- Host-runtime (v8) values as far as the bindings inspect them:
the bindings only ask `IsString`, `IsUndefined`, `IsBoolean`, `IsObject`,
`IsArray`, `IsNumber`, `IsNull`, `IsFunction` and coerce. -/
inductive JsVal where
  | strv (s : String)
  | numv (n : Int)
  | boolv (b : Bool)
  | arrv (elems : List JsVal)
  | objv
  | nullv
  | undef
  | funcv

/-- Test `v->IsString()`. -/
def JsVal.isString : JsVal → Bool
  | .strv _ => true
  | _ => false

/-- Test `v->IsUndefined()`. -/
def JsVal.isUndefined : JsVal → Bool
  | .undef => true
  | _ => false

/-- Test `v->IsBoolean()`. -/
def JsVal.isBoolean : JsVal → Bool
  | .boolv _ => true
  | _ => false

/-- Test `v->IsObject()`: in the host runtime arrays and functions are objects. -/
def JsVal.isObject : JsVal → Bool
  | .objv => true
  | .arrv _ => true
  | .funcv => true
  | _ => false

/-- Test `v->IsArray()`. -/
def JsVal.isArray : JsVal → Bool
  | .arrv _ => true
  | _ => false

/-- Test `v->IsNumber()`. -/
def JsVal.isNumber : JsVal → Bool
  | .numv _ => true
  | _ => false

/-- Test `v->IsNull()`. -/
def JsVal.isNull : JsVal → Bool
  | .nullv => true
  | _ => false

/-- Test `v->IsFunction()`. -/
def JsVal.isFunction : JsVal → Bool
  | .funcv => true
  | _ => false

/-- Coercion `v->NumberValue()` of the host runtime; non-numbers are modelled as 0
(the bindings never look at the coerced value again, so the exact
coercion of a non-number is irrelevant to every claim). -/
def numberValue : JsVal → Int
  | .numv n => n
  | _ => 0

/-- Coercion `*v8::String::Utf8Value(v->ToString())` of the host runtime; non-strings
are modelled as the empty string. -/
def stringValue : JsVal → String
  | .strv s => s
  | _ => ""

/-- Function `parsePathList` (bindings.cpp lines 57-81): if the argument is an
array, collect its string elements in order, silently skipping
non-string elements; any other argument yields the empty list. -/
def parsePathList : JsVal → List String
  | .arrv xs => xs.filterMap fun e =>
      match e with
      | .strv s => some s
      | _ => none
  | _ => []

/-- The file-scope mutable state touched by `Bindings::global`
(bindings.cpp lines 46-55): whether `stageFactory` has been created,
the `paths` list, the cache and the arbiter configuration. -/
structure GlobalState where
  stageFactorySet : Bool
  paths : List String
  cacheSize : Option Int
  arbiter : Option String
deriving DecidableEq, Repr

/-- The process state before any call to `Bindings::global`. -/
def initialGlobalState : GlobalState :=
  { stageFactorySet := false, paths := [], cacheSize := none, arbiter := none }

/-- The exceptions `Bindings::global` can throw. -/
inductive GlobalErr where
  | wrongArgCount
  | multipleInit
deriving DecidableEq, Repr

/-- The validation message accumulated by `Bindings::global`
(bindings.cpp lines 161-164).  The source writes the argument names in
single quotes; the quotes are elided here. -/
def globalErrMsg (pathsArg cacheSizeArg arbiterArg : JsVal) : String :=
  (if !pathsArg.isArray then "\tpaths must be an array" else "")
    ++ (if !cacheSizeArg.isNumber then "\tcacheSize must be a number" else "")
    ++ (if !arbiterArg.isString then "\tarbiter must be a string" else "")

/-- Function `Bindings::global` (bindings.cpp lines 141-178).  Throws (`.error`)
on a wrong argument count or on re-initialization, both before any
mutation; otherwise builds `errMsg` (which the source never reads
afterwards) and unconditionally installs paths, cache and arbiter,
setting `stageFactory` last. -/
def globalCall (st : GlobalState) (args : List JsVal) :
    Except GlobalErr GlobalState :=
  if args.length ≠ 3 then .error .wrongArgCount
  else if st.stageFactorySet then .error .multipleInit
  else
    let pathsArg := args.getD 0 .undef
    let cacheSizeArg := args.getD 1 .undef
    let arbiterArg := args.getD 2 .undef
    let _errMsg := globalErrMsg pathsArg cacheSizeArg arbiterArg
    .ok { stageFactorySet := true
          paths := parsePathList pathsArg
          cacheSize := some (numberValue cacheSizeArg)
          arbiter := some (stringValue arbiterArg) }

/-- Running `Bindings::global` as a state transition: a thrown exception leaves
the file-scope state exactly as it was (both throws precede every
mutation in the source). -/
def globalRun (st : GlobalState) (args : List JsVal) :
    GlobalState × Option GlobalErr :=
  match globalCall st args with
  | .ok st2 => (st2, none)
  | .error e => (st, some e)

/-- Type `entwine::Point` as used by the scale/offset handling; the clamping
code only compares components with zero and assigns 1, so the double
components are modelled as rationals. -/
structure EntwinePoint where
  x : Rat
  y : Rat
  z : Rat
deriving DecidableEq, Repr

/-- The zero-component clamp applied to a parsed scale point
(bindings.cpp lines 306-308 and 374-376):
`if (!scale->x) scale->x = 1;` and likewise for y and z. -/
def clampScale (p : EntwinePoint) : EntwinePoint :=
  { x := if p.x = 0 then 1 else p.x
    y := if p.y = 0 then 1 else p.y
    z := if p.z = 0 then 1 else p.z }

/-- Scale handling in `Bindings::files` (bindings.cpp lines 302-309):
a null argument stays absent, otherwise the parsed point is clamped. -/
def filesParseScale (scaleArg : Option EntwinePoint) : Option EntwinePoint :=
  scaleArg.map clampScale

/-- Offset handling in `Bindings::files` (bindings.cpp lines 311-314):
the parsed offset is used as-is. -/
def filesParseOffset (offsetArg : Option EntwinePoint) : Option EntwinePoint :=
  offsetArg

/-- Scale handling in `Bindings::read` (bindings.cpp lines 370-377),
textually identical to the `files` version. -/
def readParseScale (scaleArg : Option EntwinePoint) : Option EntwinePoint :=
  scaleArg.map clampScale

/-- Offset handling in `Bindings::read` (bindings.cpp lines 379-382). -/
def readParseOffset (offsetArg : Option EntwinePoint) : Option EntwinePoint :=
  offsetArg

/-- Type `EntwineReadQuery` (entwine.cpp): the resolved point-id sequence
`m_ids` plus the cursor `index()` inherited from the `ReadQuery` base.
Point ids and bytes are abstracted to naturals; the reader capability
`m_entwine.getPointData` is a parameter `decode` where needed. -/
structure EntwineReadQuery where
  ids : List Nat
  index : Nat
deriving DecidableEq, Repr

/-- Method `EntwineReadQuery::numPoints()` (entwine.cpp lines 37-40):
`return m_ids.size();`. -/
def EntwineReadQuery.numPoints (q : EntwineReadQuery) : Nat :=
  q.ids.length

/-- Method `EntwineReadQuery::eof()` (entwine.cpp lines 32-35):
`return index() == numPoints();`. -/
def EntwineReadQuery.eof (q : EntwineReadQuery) : Bool :=
  q.index == q.numPoints

/-- Method `EntwineReadQuery::readPoint` (entwine.cpp lines 23-30): the bytes
written at the output position are
`m_entwine.getPointData(m_ids[index()], schema)`. -/
def EntwineReadQuery.readPoint (decode : Nat → List Nat)
    (q : EntwineReadQuery) : List Nat :=
  decode (q.ids.getD q.index 0)

/-- Advancing the base-class cursor after one `readPoint`. -/
def EntwineReadQuery.advance (q : EntwineReadQuery) : EntwineReadQuery :=
  ⟨q.ids, q.index + 1⟩

/-- Modelled from the spec: one buffer-filling pass of the `ReadQuery`
streaming loop (the base class is not in the repository snapshot).
The spec: acquire a buffer, "fill it with as many serialized points as
fit using the PointCodec".  `c` is the remaining point capacity of the
buffer; each iteration writes `readPoint` and advances the cursor,
stopping at `eof` or a full buffer.  Returns the points written (each a
byte list) and the advanced query. -/
def fillBuffer (decode : Nat → List Nat) :
    Nat → EntwineReadQuery → List (List Nat) × EntwineReadQuery
  | 0, q => ([], q)
  | c + 1, q =>
    if q.eof then ([], q)
    else
      (q.readPoint decode :: (fillBuffer decode c q.advance).1,
        (fillBuffer decode c q.advance).2)

/-- Modelled from the spec: the outer streaming loop, "repeatedly acquire
a buffer ... invoke the data callback with the filled buffer".  Produces
the ordered list of buffer contents, each buffer a list of points.
`fuel` bounds the iteration count; `numPoints` iterations always suffice
for a positive capacity. -/
def streamLoop (decode : Nat → List Nat) (cap : Nat) :
    Nat → EntwineReadQuery → List (List (List Nat))
  | 0, _ => []
  | fuel + 1, q =>
    if q.eof then []
    else
      (fillBuffer decode cap q).1 ::
        streamLoop decode cap fuel (fillBuffer decode cap q).2

/-- The full stream of buffers for a resolved id sequence: the query
starts at cursor 0 and runs to `eof`. -/
def streamRead (decode : Nat → List Nat) (cap : Nat) (ids : List Nat) :
    List (List (List Nat)) :=
  streamLoop decode cap ids.length ⟨ids, 0⟩

/-- The caller-visible callbacks of one read: the one-shot init callback
(Status plus the total point count summary) and the data callback
(a filled buffer, the end-of-stream flag, and the status field carried
by the final delivery). -/
inductive ReadEvent where
  | initCb (st : Status) (total : Nat)
  | dataCb (bytes : List Nat) (done : Bool) (st : Status)
deriving DecidableEq, Repr

/-- Whether an event is a data callback. -/
def ReadEvent.isData : ReadEvent → Bool
  | .dataCb _ _ _ => true
  | _ => false

/-- Whether an event is the terminal delivery (end-of-stream flag set). -/
def ReadEvent.isDone : ReadEvent → Bool
  | .dataCb _ true _ => true
  | _ => false

/-- How `readCommand->init()` can finish inside the worker callback:
normally, or by one of the exception classes distinguished by the
handlers in bindings.cpp lines 452-475. -/
inductive InitOutcome where
  | ok
  | invalidQuery (msg : String)
  | wrongQueryType (msg : String)
  | stdException (msg : String)
  | unknownException
deriving DecidableEq, Repr

/-- How `readCommand->read()` can finish inside the worker callback:
normally, or by one of the exception classes distinguished by the
handlers in bindings.cpp lines 485-496. -/
inductive ReadOutcome where
  | ok
  | runtimeError (msg : String)
  | unknownError
deriving DecidableEq, Repr

/-- The status after the init phase, exactly as the exception handlers
of bindings.cpp lines 452-475 set it: `entwine::InvalidQuery` gives 400,
`WrongQueryType` gives 400, any other `std::exception` gives 400, and a
non-standard exception gives 500. -/
def initStatus : InitOutcome → Status
  | .ok => okStatus
  | .invalidQuery m => ⟨400, m⟩
  | .wrongQueryType m => ⟨400, m⟩
  | .stdException m => ⟨400, m⟩
  | .unknownException => ⟨500, "Error during query"⟩

/-- The status after the read phase, exactly as the exception handlers
of bindings.cpp lines 485-496 set it: both a `std::runtime_error` and a
non-standard exception give 500. -/
def readStatus : ReadOutcome → Status
  | .ok => okStatus
  | .runtimeError m => ⟨500, m⟩
  | .unknownError => ⟨500, "Error during query"⟩

/-- Modelled from the spec: delivery of the streamed buffers through the
data callback, the end-of-stream flag set exactly on the last delivery
("a flag indicating whether this is the final chunk"). -/
def markLast : List (List Nat) → List ReadEvent
  | [] => []
  | [c] => [.dataCb c true okStatus]
  | c :: c2 :: rest => .dataCb c false okStatus :: markLast (c2 :: rest)

/-- Modelled from the spec: the data-callback events of the streaming
phase.  On success every buffer of `streamRead` is delivered in order
with the flag on the last one; on a mid-stream failure the buffers
delivered before the failure point are followed by a terminal delivery
whose status field carries the failure status ("otherwise surface via
status field of the final callback"). -/
def streamedEvents (decode : Nat → List Nat) (cap : Nat) (ids : List Nat)
    (ro : ReadOutcome) (failAfter : Nat) : List ReadEvent :=
  let chunks := (streamRead decode cap ids).map List.flatten
  match ro with
  | .ok => markLast chunks
  | _ =>
    (chunks.take failAfter).map (fun c => .dataCb c false okStatus)
      ++ [.dataCb [] true (readStatus ro)]

/-- The arguments of `Bindings::read` (bindings.cpp lines 334-342). -/
structure ReadArgs where
  schemaArg : JsVal
  filterArg : JsVal
  compressArg : JsVal
  scaleArg : JsVal
  offsetArg : JsVal
  queryArg : JsVal
  initCbArg : JsVal
  dataCbArg : JsVal

/-- The validation message accumulated by `Bindings::read`
(bindings.cpp lines 344-351).  The source labels the filter-argument
message with the name `schema` as well; that quirk is kept.  The quotes
around argument names are elided. -/
def readErrMsg (a : ReadArgs) : String :=
  (if !a.schemaArg.isString && !a.schemaArg.isUndefined then
    "\tschema must be a string or undefined" else "")
  ++ (if !a.filterArg.isString && !a.filterArg.isUndefined then
    "\tschema must be a string or undefined" else "")
  ++ (if !a.compressArg.isBoolean then
    "\tcompress must be a boolean" else "")
  ++ (if !a.queryArg.isObject then "\tInvalid query type" else "")

/-- One invocation of `Bindings::read` together with the behaviour of
the parts it delegates to: whether `ReadCommand::create` throws
(bindings.cpp lines 407-431), how `init()` finishes, the resolved
point-id sequence, how `read()` finishes and after how many delivered
buffers a mid-stream failure strikes. -/
structure ReadRun where
  args : ReadArgs
  createThrows : Bool
  initOutcome : InitOutcome
  ids : List Nat
  readOutcome : ReadOutcome
  failAfter : Nat

/-- Function `Bindings::read` (bindings.cpp lines 328-514) as a trace generator.
An invalid init or data callback argument throws out of the binding
(`.error`); a non-empty validation message short-circuits with a
400 status through the init callback; a throwing `ReadCommand::create`
is only logged and produces no callback at all; otherwise the worker
runs `init()`, delivers the init callback, stops if the status is not
ok, and else streams.  The init summary carries
`EntwineReadQuery.numPoints`. -/
def bindingsRead (decode : Nat → List Nat) (cap : Nat) (r : ReadRun) :
    Except String (List ReadEvent) :=
  if !r.args.initCbArg.isFunction then .error "Invalid initCb"
  else if !r.args.dataCbArg.isFunction then .error "Invalid dataCb"
  else if readErrMsg r.args ≠ "" then
    .ok [.initCb ⟨400, readErrMsg r.args⟩ 0]
  else if r.createThrows then .ok []
  else if !(initStatus r.initOutcome).isOk then
    .ok [.initCb (initStatus r.initOutcome) 0]
  else
    .ok (.initCb (initStatus r.initOutcome)
        (EntwineReadQuery.numPoints ⟨r.ids, 0⟩)
      :: streamedEvents decode cap r.ids r.readOutcome r.failAfter)

/-- The bytes a consumer reassembles: the data-callback payloads
concatenated in delivery order. -/
def deliveredBytes (tr : List ReadEvent) : List Nat :=
  (tr.filterMap fun e =>
    match e with
    | .dataCb b _ _ => some b
    | _ => none).flatten

/-- The data-callback payloads of a trace, in delivery order. -/
def deliveredBuffers (tr : List ReadEvent) : List (List Nat) :=
  tr.filterMap fun e =>
    match e with
    | .dataCb b _ _ => some b
    | _ => none

/-- Constant `numBuffers` (bindings.cpp line 46): the fixed pool size of this
build. -/
def numBuffers : Nat := 512

/-- Modelled from the spec: the `BufferPool` state (the pool source is
not in the repository snapshot; bindings.cpp line 47 constructs
`BufferPool bufferPool(numBuffers)`).  `free` buffers are in the pool,
`checkedOut` buffers are held by in-flight transfers. -/
structure BufferPool where
  free : Nat
  checkedOut : Nat
deriving DecidableEq, Repr

/-- The pool as constructed at process start: every buffer free. -/
def initPool : BufferPool := ⟨numBuffers, 0⟩

/-- The operations worker threads perform on the pool. -/
inductive PoolOp where
  | acquire
  | release
deriving DecidableEq, Repr

/-- Modelled from the spec: `acquire()` hands out a free buffer and
blocks (leaves the pool unchanged, the caller suspended) when none is
free — it never errors and never drops; `release(buffer)` returns a
held buffer to the free set. -/
def poolStep (p : BufferPool) : PoolOp → BufferPool
  | .acquire => if 0 < p.free then ⟨p.free - 1, p.checkedOut + 1⟩ else p
  | .release => if 0 < p.checkedOut then ⟨p.free + 1, p.checkedOut - 1⟩ else p

/-- Running a sequence of pool operations from process start. -/
def runPool (ops : List PoolOp) : BufferPool :=
  ops.foldl poolStep initPool

/-- Modelled from the spec: the reference-holding events in the life of
one session and one in-flight read command.  `bindingsCreate` is the
`Bindings` object binding its `m_session`; `commandAcquire` is
`ReadCommand::create` copying that shared handle (bindings.cpp line
411); `sessionDestroy` is `Bindings::destroy` resetting `m_session`
(bindings.cpp line 275); `commandRelease` is the command dropping its
handle at termination. -/
inductive LifeOp where
  | bindingsCreate
  | commandAcquire
  | sessionDestroy
  | commandRelease
deriving DecidableEq, Repr

/-- Reference-count transition for one lifecycle event. -/
def lifeStep (n : Nat) : LifeOp → Nat
  | .bindingsCreate => n + 1
  | .commandAcquire => n + 1
  | .sessionDestroy => n - 1
  | .commandRelease => n - 1

/-- The session reference count after a sequence of lifecycle events. -/
def readerRefs (ops : List LifeOp) : Nat :=
  ops.foldl lifeStep 0

/-- One buffer pass writes the decodes of the next `c` remaining ids (or
all remaining ids when fewer than `c` remain) and advances the cursor
accordingly. -/
theorem fillBuffer_spec (decode : Nat → List Nat) :
    ∀ (c : Nat) (q : EntwineReadQuery), q.index ≤ q.ids.length →
      fillBuffer decode c q =
        (((q.ids.drop q.index).take c).map decode,
          ⟨q.ids, q.index + min c (q.ids.length - q.index)⟩) := by
  intro c
  induction c with
  | zero =>
    intro q _
    simp [fillBuffer]
  | succ c ih =>
    intro q hq
    by_cases he : q.eof
    · have hidx : q.index = q.ids.length := by
        simpa [EntwineReadQuery.eof, EntwineReadQuery.numPoints] using he
      have hq' : (⟨q.ids, q.ids.length⟩ : EntwineReadQuery) = q := by
        rw [← hidx]
      rw [fillBuffer, if_pos he]
      rw [List.drop_eq_nil_of_le (le_of_eq hidx.symm)]
      simp [hidx, hq']
    · have he' : q.eof = false := by simpa using he
      have hidx : q.index ≠ q.ids.length := by
        simpa [EntwineReadQuery.eof, EntwineReadQuery.numPoints] using he'
      have hlt : q.index < q.ids.length := lt_of_le_of_ne hq hidx
      have hadv := ih q.advance (by simpa [EntwineReadQuery.advance] using hlt)
      have hdrop : q.ids.drop q.index =
          q.ids[q.index] :: q.ids.drop (q.index + 1) :=
        List.drop_eq_getElem_cons hlt
      have hget : q.ids.getD q.index 0 = q.ids[q.index] := by
        simp [List.getD_eq_getElem?_getD, List.getElem?_eq_getElem hlt]
      rw [fillBuffer, if_neg he, hadv]
      simp only [EntwineReadQuery.readPoint, EntwineReadQuery.advance, hget,
        hdrop, List.take_succ_cons, List.map_cons, Prod.mk.injEq]
      refine ⟨trivial, ?_⟩
      have harith : q.index + 1 + min c (q.ids.length - (q.index + 1)) =
          q.index + min (c + 1) (q.ids.length - q.index) := by
        omega
      simp [harith]

/-- Joining the streamed buffers (at point granularity) reproduces the
decode of every id not yet consumed, in order, provided the buffer
capacity is positive and the fuel covers the remaining count. -/
theorem streamLoop_join (decode : Nat → List Nat) (cap : Nat)
    (hcap : 0 < cap) :
    ∀ (fuel : Nat) (q : EntwineReadQuery), q.index ≤ q.ids.length →
      q.ids.length - q.index ≤ fuel →
      (streamLoop decode cap fuel q).flatten =
        (q.ids.drop q.index).map decode := by
  intro fuel
  induction fuel with
  | zero =>
    intro q hq hfuel
    have hidx : q.index = q.ids.length := by omega
    rw [streamLoop, List.drop_eq_nil_of_le (le_of_eq hidx.symm)]
    simp
  | succ fuel ih =>
    intro q hq hfuel
    by_cases he : q.eof
    · have hidx : q.index = q.ids.length := by
        simpa [EntwineReadQuery.eof, EntwineReadQuery.numPoints] using he
      rw [streamLoop, if_pos he,
        List.drop_eq_nil_of_le (le_of_eq hidx.symm)]
      simp
    · have he' : q.eof = false := by simpa using he
      have hidx : q.index ≠ q.ids.length := by
        simpa [EntwineReadQuery.eof, EntwineReadQuery.numPoints] using he'
      have hlt : q.index < q.ids.length := lt_of_le_of_ne hq hidx
      have hfill := fillBuffer_spec decode cap q hq
      have hrest : (streamLoop decode cap fuel
            ⟨q.ids, q.index + min cap (q.ids.length - q.index)⟩).flatten =
          (q.ids.drop (q.index + min cap (q.ids.length - q.index))).map
            decode := by
        simpa using ih ⟨q.ids, q.index + min cap (q.ids.length - q.index)⟩
          (by simp; omega) (by simp; omega)
      rw [streamLoop, if_neg he, hfill]
      simp only [List.flatten_cons, hrest]
      rw [← List.map_append]
      congr 1
      rcases le_or_lt cap (q.ids.length - q.index) with hle | hgt
      · have hmin : min cap (q.ids.length - q.index) = cap := by omega
        rw [hmin]
        exact List.drop_take_append_drop q.ids q.index cap
      · have h1 : q.index + min cap (q.ids.length - q.index) =
            q.ids.length := by omega
        have hlen : (q.ids.drop q.index).length ≤ cap := by
          simp [List.length_drop]; omega
        rw [h1, List.drop_length, List.append_nil,
          List.take_of_length_le hlen]

/-- The full stream from cursor 0: the sequence of points written is
exactly the decode of the resolved id sequence, in order. -/
theorem streamRead_points (decode : Nat → List Nat) (cap : Nat)
    (ids : List Nat) (hcap : 0 < cap) :
    (streamRead decode cap ids).flatten = ids.map decode := by
  have h := streamLoop_join decode cap hcap ids.length ⟨ids, 0⟩
    (by simp) (by simp)
  simpa [streamRead] using h

/-- Every pool state reachable from process start keeps the sum of free
and checked-out buffers equal to the pool size. -/
theorem runPool_sum (ops : List PoolOp) :
    (runPool ops).free + (runPool ops).checkedOut = numBuffers := by
  suffices h : ∀ p : BufferPool, p.free + p.checkedOut = numBuffers →
      (ops.foldl poolStep p).free + (ops.foldl poolStep p).checkedOut =
        numBuffers by
    exact h initPool (by simp [initPool])
  induction ops with
  | nil => intro p hp; simpa using hp
  | cons op rest ih =>
    intro p hp
    rw [List.foldl_cons]
    apply ih
    cases op <;> simp only [poolStep] <;> split <;> (try dsimp only) <;>
      omega

/-- Delivering via `markLast` preserves the buffer sequence. -/
theorem markLast_buffers :
    ∀ l : List (List Nat), deliveredBuffers (markLast l) = l := by
  intro l
  induction l with
  | nil => rfl
  | cons c rest ih =>
    cases rest with
    | nil => rfl
    | cons c2 r2 =>
      simp only [markLast, deliveredBuffers, List.filterMap_cons] at ih ⊢
      exact congrArg (c :: ·) ih

/-- Delivery `markLast` never produces the empty trace from a nonempty chunk
list. -/
theorem markLast_ne_nil (c : List Nat) (rest : List (List Nat)) :
    markLast (c :: rest) ≠ [] := by
  cases rest <;> simp [markLast]

/-- In a `markLast` delivery every event before the last one has the
end-of-stream flag unset. -/
theorem markLast_dropLast_not_done :
    ∀ l : List (List Nat), ∀ e ∈ (markLast l).dropLast,
      e.isDone = false := by
  intro l
  induction l with
  | nil => intro e he; simp [markLast] at he
  | cons c rest ih =>
    cases rest with
    | nil => intro e he; simp [markLast] at he
    | cons c2 r2 =>
      intro e he
      obtain ⟨h, t, heq⟩ := List.exists_cons_of_ne_nil (markLast_ne_nil c2 r2)
      rw [markLast, heq, List.dropLast_cons₂] at he
      rcases List.mem_cons.mp he with h1 | h2
      · rw [h1]; rfl
      · exact ih e (by rw [heq]; exact h2)

/-- Flattening buffer-wise byte chunks agrees with flattening the
point-wise chunks twice. -/
theorem flatten_map_flatten (l : List (List (List Nat))) :
    (l.map List.flatten).flatten = l.flatten.flatten := by
  induction l with
  | nil => rfl
  | cons c rest ih =>
    simp only [List.map_cons, List.flatten_cons, List.flatten_append, ih]

/-- A non-array argument parses to the empty path list. -/
theorem parsePathList_of_not_array (v : JsVal) (h : v.isArray = false) :
    parsePathList v = [] := by
  cases v <;> first
    | rfl
    | simp [JsVal.isArray] at h

/-- Prepending an unflagged event preserves the flag-only-at-end shape. -/
theorem cons_dropLast_not_done (e0 : ReadEvent) (he0 : e0.isDone = false)
    (rest : List ReadEvent)
    (hrest : ∀ e ∈ rest.dropLast, e.isDone = false) :
    ∀ e ∈ (e0 :: rest).dropLast, e.isDone = false := by
  cases rest with
  | nil => intro e he; simp at he
  | cons r1 r2 =>
    rw [List.dropLast_cons₂]
    intro e he
    rcases List.mem_cons.mp he with h1 | h2
    · rw [h1]; exact he0
    · exact hrest e h2

/-- In every streamed delivery only the final event carries the
end-of-stream flag. -/
theorem streamedEvents_dropLast_not_done (decode : Nat → List Nat)
    (cap : Nat) (ids : List Nat) (ro : ReadOutcome) (failAfter : Nat) :
    ∀ e ∈ (streamedEvents decode cap ids ro failAfter).dropLast,
      e.isDone = false := by
  cases ro with
  | ok => exact markLast_dropLast_not_done _
  | runtimeError m =>
    intro e he
    simp only [streamedEvents, List.dropLast_concat] at he
    obtain ⟨c, _, hc⟩ := List.mem_map.mp he
    rw [← hc]; rfl
  | unknownError =>
    intro e he
    simp only [streamedEvents, List.dropLast_concat] at he
    obtain ⟨c, _, hc⟩ := List.mem_map.mp he
    rw [← hc]; rfl

/-- Every trace `Bindings::read` can emit carries the end-of-stream
flag only on its final event. -/
theorem bindingsRead_dropLast_not_done (decode : Nat → List Nat)
    (cap : Nat) (r : ReadRun) (tr : List ReadEvent)
    (h : bindingsRead decode cap r = .ok tr) :
    ∀ e ∈ tr.dropLast, e.isDone = false := by
  unfold bindingsRead at h
  split at h
  · exact absurd h (by simp)
  · split at h
    · exact absurd h (by simp)
    · split at h
      · cases Except.ok.inj h; intro e he; simp at he
      · split at h
        · cases Except.ok.inj h; intro e he; simp at he
        · split at h
          · cases Except.ok.inj h; intro e he; simp at he
          · cases Except.ok.inj h
            exact cons_dropLast_not_done _ (by rfl) _
              (streamedEvents_dropLast_not_done decode cap r.ids
                r.readOutcome r.failAfter)

/-- If every event before the last has the end-of-stream flag unset,
then nothing follows a flagged event: the terminal delivery is last. -/
theorem terminal_is_last (tr : List ReadEvent)
    (h : ∀ e ∈ tr.dropLast, e.isDone = false)
    (pre : List ReadEvent) (e : ReadEvent) (post : List ReadEvent)
    (heq : tr = pre ++ e :: post) (hdone : e.isDone = true) :
    post = [] := by
  by_contra hpost
  have hmem : e ∈ tr.dropLast := by
    subst heq
    rw [List.dropLast_append_of_ne_nil _ (List.cons_ne_nil e post),
      List.dropLast_cons_of_ne_nil hpost]
    exact List.mem_append_right pre (List.mem_cons_self e _)
  rw [h e hmem] at hdone
  exact Bool.false_ne_true hdone

/-- C1: for every successful read query, concatenating the bytes
delivered across the successive data callbacks reproduces exactly the
byte sequence obtained by decoding the resolved point-id sequence
directly, and the sequence of points written into the buffers is the
decode of the ids in order (so data callbacks are delivered in
point-sequence order). -/
theorem read_stream_lossless (decode : Nat → List Nat) (cap : Nat)
    (r : ReadRun) (hcap : 0 < cap)
    (hinit : r.args.initCbArg.isFunction = true)
    (hdata : r.args.dataCbArg.isFunction = true)
    (hmsg : readErrMsg r.args = "")
    (hcreate : r.createThrows = false)
    (hio : r.initOutcome = InitOutcome.ok)
    (hro : r.readOutcome = ReadOutcome.ok) :
    ∃ tr, bindingsRead decode cap r = .ok tr ∧
      deliveredBytes tr = (r.ids.map decode).flatten ∧
      (streamRead decode cap r.ids).flatten = r.ids.map decode := by
  have htr : bindingsRead decode cap r = .ok
      (ReadEvent.initCb (initStatus r.initOutcome)
          (EntwineReadQuery.numPoints ⟨r.ids, 0⟩)
        :: streamedEvents decode cap r.ids r.readOutcome r.failAfter) := by
    simp [bindingsRead, hinit, hdata, hmsg, hcreate, hio, initStatus,
      okStatus, Status.isOk]
  refine ⟨_, htr, ?_, streamRead_points decode cap r.ids hcap⟩
  rw [hro]
  simp only [streamedEvents]
  calc deliveredBytes (ReadEvent.initCb (initStatus r.initOutcome)
          (EntwineReadQuery.numPoints ⟨r.ids, 0⟩)
        :: markLast ((streamRead decode cap r.ids).map List.flatten))
      = (deliveredBuffers
          (markLast ((streamRead decode cap r.ids).map List.flatten))).flatten
        := by
        simp [deliveredBytes, deliveredBuffers, List.filterMap_cons]
    _ = ((streamRead decode cap r.ids).map List.flatten).flatten := by
        rw [markLast_buffers]
    _ = (streamRead decode cap r.ids).flatten.flatten :=
        flatten_map_flatten _
    _ = (r.ids.map decode).flatten := by
        rw [streamRead_points decode cap r.ids hcap]

/-- C1 witness: a concrete run with three points and a two-point buffer
capacity. -/
theorem read_stream_lossless_witness :
    ∃ tr, bindingsRead (fun i => [i, i + 1]) 2
        { args := ⟨.undef, .undef, .boolv true, .nullv, .nullv, .objv,
            .funcv, .funcv⟩,
          createThrows := false, initOutcome := .ok, ids := [5, 7, 9],
          readOutcome := .ok, failAfter := 0 } = .ok tr ∧
      deliveredBytes tr = (([5, 7, 9].map (fun i => [i, i + 1]))).flatten ∧
      (streamRead (fun i => [i, i + 1]) 2 [5, 7, 9]).flatten =
        [5, 7, 9].map (fun i => [i, i + 1]) :=
  read_stream_lossless (fun i => [i, i + 1]) 2
    { args := ⟨.undef, .undef, .boolv true, .nullv, .nullv, .objv,
        .funcv, .funcv⟩,
      createThrows := false, initOutcome := .ok, ids := [5, 7, 9],
      readOutcome := .ok, failAfter := 0 }
    (by decide) rfl rfl rfl rfl rfl rfl

/-- C4: a read query whose resolved point-id sequence is empty reports a
total point count of zero through the init callback, never invokes the
data callback, and completes normally (the init status is the success
status, not an error). -/
theorem empty_query_completes_normally (decode : Nat → List Nat)
    (cap : Nat) (r : ReadRun)
    (hinit : r.args.initCbArg.isFunction = true)
    (hdata : r.args.dataCbArg.isFunction = true)
    (hmsg : readErrMsg r.args = "")
    (hcreate : r.createThrows = false)
    (hio : r.initOutcome = InitOutcome.ok)
    (hro : r.readOutcome = ReadOutcome.ok)
    (hids : r.ids = []) :
    EntwineReadQuery.numPoints ⟨r.ids, 0⟩ = 0 ∧
    EntwineReadQuery.eof ⟨r.ids, 0⟩ = true ∧
    bindingsRead decode cap r = .ok [.initCb okStatus 0] ∧
    ∀ e ∈ [ReadEvent.initCb okStatus 0], e.isData = false := by
  refine ⟨?_, ?_, ?_, ?_⟩
  · simp [EntwineReadQuery.numPoints, hids]
  · simp [EntwineReadQuery.eof, EntwineReadQuery.numPoints, hids]
  · simp [bindingsRead, hinit, hdata, hmsg, hcreate, hio, hro, hids,
      initStatus, okStatus, Status.isOk, streamedEvents, streamRead,
      streamLoop, markLast, EntwineReadQuery.numPoints]
  · intro e he
    simp only [List.mem_singleton] at he
    rw [he]; rfl

/-- C4 witness: the concrete empty-result run. -/
theorem empty_query_completes_normally_witness :
    EntwineReadQuery.numPoints ⟨([] : List Nat), 0⟩ = 0 ∧
    EntwineReadQuery.eof ⟨([] : List Nat), 0⟩ = true ∧
    bindingsRead (fun i => [i]) 3
      { args := ⟨.undef, .undef, .boolv true, .nullv, .nullv, .objv,
          .funcv, .funcv⟩,
        createThrows := false, initOutcome := .ok, ids := [],
        readOutcome := .ok, failAfter := 0 } = .ok [.initCb okStatus 0] ∧
    ∀ e ∈ [ReadEvent.initCb okStatus 0], e.isData = false :=
  empty_query_completes_normally (fun i => [i]) 3
    { args := ⟨.undef, .undef, .boolv true, .nullv, .nullv, .objv,
        .funcv, .funcv⟩,
      createThrows := false, initOutcome := .ok, ids := [],
      readOutcome := .ok, failAfter := 0 }
    rfl rfl rfl rfl rfl rfl rfl

/-- C10: when `ReadCommand::create` itself throws, `Bindings::read`
only logs and returns without queueing work: the emitted trace is empty,
so neither the init callback nor the data callback is ever invoked and
no Status reaches the caller. -/
theorem create_throw_silent (decode : Nat → List Nat) (cap : Nat)
    (r : ReadRun)
    (hinit : r.args.initCbArg.isFunction = true)
    (hdata : r.args.dataCbArg.isFunction = true)
    (hmsg : readErrMsg r.args = "")
    (hthrow : r.createThrows = true) :
    bindingsRead decode cap r = .ok [] := by
  simp [bindingsRead, hinit, hdata, hmsg, hthrow]

/-- C10 witness: a concrete throwing construction. -/
theorem create_throw_silent_witness :
    bindingsRead (fun i => [i]) 3
      { args := ⟨.undef, .undef, .boolv true, .nullv, .nullv, .objv,
          .funcv, .funcv⟩,
        createThrows := true, initOutcome := .ok, ids := [1, 2],
        readOutcome := .ok, failAfter := 0 } = .ok [] :=
  create_throw_silent (fun i => [i]) 3
    { args := ⟨.undef, .undef, .boolv true, .nullv, .nullv, .objv,
        .funcv, .funcv⟩,
      createThrows := true, initOutcome := .ok, ids := [1, 2],
      readOutcome := .ok, failAfter := 0 }
    rfl rfl rfl rfl

/-- C2: a read invocation with an invalid query specification — bad
argument shapes caught by the validation block, or an invalid schema
string (`entwine::InvalidQuery`) or wrong query type (`WrongQueryType`)
raised at initialization — fails with a 400-class Status delivered
through the init callback as the only event: no data callback ever
fires and the streaming phase is never entered. -/
theorem invalid_read_fails_400_before_data (decode : Nat → List Nat)
    (cap : Nat) (r : ReadRun)
    (hinit : r.args.initCbArg.isFunction = true)
    (hdata : r.args.dataCbArg.isFunction = true)
    (hbad : readErrMsg r.args ≠ "" ∨
      (r.createThrows = false ∧
        ((∃ m, r.initOutcome = InitOutcome.invalidQuery m) ∨
         (∃ m, r.initOutcome = InitOutcome.wrongQueryType m)))) :
    ∃ st : Status, bindingsRead decode cap r = .ok [.initCb st 0] ∧
      clientClass st.code ∧
      ∀ e ∈ [ReadEvent.initCb st 0], e.isData = false := by
  by_cases hmsg : readErrMsg r.args = ""
  · rcases hbad with hbad | ⟨hct, hbad⟩
    · exact absurd hmsg hbad
    · rcases hbad with ⟨m, hm⟩ | ⟨m, hm⟩ <;>
        exact ⟨⟨400, m⟩,
          by simp [bindingsRead, hinit, hdata, hmsg, hct, hm, initStatus,
            Status.isOk],
          by constructor <;> norm_num,
          by intro e he; simp only [List.mem_singleton] at he; rw [he]; rfl⟩
  · exact ⟨⟨400, readErrMsg r.args⟩,
      by simp [bindingsRead, hinit, hdata, hmsg],
      by constructor <;> norm_num,
      by intro e he; simp only [List.mem_singleton] at he; rw [he]; rfl⟩

/-- C2 witness: a read invocation whose `compress` argument is not a
boolean. -/
theorem invalid_read_fails_400_before_data_witness :
    (readErrMsg ⟨.undef, .undef, .strv "x", .nullv, .nullv, .objv,
        .funcv, .funcv⟩ ≠ "" ∨
      (false = false ∧
        ((∃ m, InitOutcome.ok = InitOutcome.invalidQuery m) ∨
         (∃ m, InitOutcome.ok = InitOutcome.wrongQueryType m)))) ∧
    ∃ st : Status, bindingsRead (fun i => [i]) 3
        { args := ⟨.undef, .undef, .strv "x", .nullv, .nullv, .objv,
            .funcv, .funcv⟩,
          createThrows := false, initOutcome := .ok, ids := [1],
          readOutcome := .ok, failAfter := 0 } = .ok [.initCb st 0] ∧
      clientClass st.code ∧
      ∀ e ∈ [ReadEvent.initCb st 0], e.isData = false :=
  ⟨Or.inl (by decide),
    invalid_read_fails_400_before_data (fun i => [i]) 3
      { args := ⟨.undef, .undef, .strv "x", .nullv, .nullv, .objv,
          .funcv, .funcv⟩,
        createThrows := false, initOutcome := .ok, ids := [1],
        readOutcome := .ok, failAfter := 0 }
      rfl rfl (Or.inl (by decide))⟩

/-- C3 counterexample: an unexpected internal exception derived from
`std::exception` (not a client error) raised during initialization is
reported through the init callback with code 400, which is not a
500-class Status — the handler at bindings.cpp lines 466-470 sets
`status.set(400, e.what())` for every `std::exception`. -/
theorem init_std_exception_not_500 :
    bindingsRead (fun i => [i]) 1
      { args := ⟨.undef, .undef, .boolv true, .nullv, .nullv, .objv,
          .funcv, .funcv⟩,
        createThrows := false, initOutcome := .stdException "boom",
        ids := [], readOutcome := .ok, failAfter := 0 } =
      .ok [.initCb ⟨400, "boom"⟩ 0] ∧
    ¬ internalClass (Status.mk 400 "boom").code :=
  ⟨by rfl, by decide⟩

/-- C3 (amended): an unexpected internal exception at initialization is
surfaced through the init callback with a 500-class Status only when it
is not derived from `std::exception`; a `std::exception`-derived
internal failure at initialization is reported with code 400.  Every
failure during the streaming read phase is surfaced with a 500-class
Status through the status field of the terminal data callback. -/
theorem internal_error_status_amended (decode : Nat → List Nat)
    (cap : Nat) (r : ReadRun)
    (hinit : r.args.initCbArg.isFunction = true)
    (hdata : r.args.dataCbArg.isFunction = true)
    (hmsg : readErrMsg r.args = "")
    (hcreate : r.createThrows = false) :
    (r.initOutcome = InitOutcome.unknownException →
      bindingsRead decode cap r =
        .ok [.initCb ⟨500, "Error during query"⟩ 0] ∧
      internalClass (initStatus r.initOutcome).code) ∧
    (∀ m, (initStatus (InitOutcome.stdException m)).code = 400) ∧
    (r.initOutcome = InitOutcome.ok → r.readOutcome ≠ ReadOutcome.ok →
      ∃ pre, bindingsRead decode cap r =
          .ok (pre ++ [.dataCb [] true (readStatus r.readOutcome)]) ∧
        internalClass (readStatus r.readOutcome).code) := by
  refine ⟨?_, fun m => rfl, ?_⟩
  · intro hu
    constructor
    · simp [bindingsRead, hinit, hdata, hmsg, hcreate, hu, initStatus,
        Status.isOk]
    · rw [hu]
      exact ⟨by norm_num [initStatus], by norm_num [initStatus]⟩
  · intro hio hro
    refine ⟨ReadEvent.initCb (initStatus r.initOutcome)
        (EntwineReadQuery.numPoints ⟨r.ids, 0⟩) ::
      (((streamRead decode cap r.ids).map List.flatten).take
        r.failAfter).map (fun c => ReadEvent.dataCb c false okStatus),
      ?_, ?_⟩
    · cases hrov : r.readOutcome with
      | ok => exact absurd hrov hro
      | runtimeError m =>
        simp [bindingsRead, hinit, hdata, hmsg, hcreate, hio, hrov,
          initStatus, okStatus, Status.isOk, streamedEvents]
      | unknownError =>
        simp [bindingsRead, hinit, hdata, hmsg, hcreate, hio, hrov,
          initStatus, okStatus, Status.isOk, streamedEvents]
    · cases hrov : r.readOutcome with
      | ok => exact absurd hrov hro
      | runtimeError m =>
        exact ⟨by norm_num [readStatus], by norm_num [readStatus]⟩
      | unknownError =>
        exact ⟨by norm_num [readStatus], by norm_num [readStatus]⟩

/-- C3 witness: the amended statement at a concrete run whose
initialization raises a non-standard exception, and a concrete
mid-stream failure. -/
theorem internal_error_status_amended_witness :
    (bindingsRead (fun i => [i]) 1
        { args := ⟨.undef, .undef, .boolv true, .nullv, .nullv, .objv,
            .funcv, .funcv⟩,
          createThrows := false, initOutcome := .unknownException,
          ids := [], readOutcome := .ok, failAfter := 0 } =
        .ok [.initCb ⟨500, "Error during query"⟩ 0] ∧
      internalClass (initStatus InitOutcome.unknownException).code) ∧
    ∃ pre, bindingsRead (fun i => [i]) 1
        { args := ⟨.undef, .undef, .boolv true, .nullv, .nullv, .objv,
            .funcv, .funcv⟩,
          createThrows := false, initOutcome := .ok, ids := [4, 5],
          readOutcome := .runtimeError "decode failed", failAfter := 1 } =
        .ok (pre ++
          [.dataCb [] true (readStatus (ReadOutcome.runtimeError
            "decode failed"))]) ∧
      internalClass (readStatus
        (ReadOutcome.runtimeError "decode failed")).code :=
  ⟨(internal_error_status_amended (fun i => [i]) 1
      { args := ⟨.undef, .undef, .boolv true, .nullv, .nullv, .objv,
          .funcv, .funcv⟩,
        createThrows := false, initOutcome := .unknownException,
        ids := [], readOutcome := .ok, failAfter := 0 }
      rfl rfl rfl rfl).1 rfl,
    (internal_error_status_amended (fun i => [i]) 1
      { args := ⟨.undef, .undef, .boolv true, .nullv, .nullv, .objv,
          .funcv, .funcv⟩,
        createThrows := false, initOutcome := .ok, ids := [4, 5],
        readOutcome := .runtimeError "decode failed", failAfter := 1 }
      rfl rfl rfl rfl).2.2 rfl (by simp)⟩

/-- C5: at every reachable instant the number of buffers checked out of
the pool never exceeds the fixed pool size established at process start
(512 in this build), and an acquisition when no buffer is free blocks —
it leaves the pool unchanged instead of erroring or dropping. -/
theorem buffer_pool_bounded (ops : List PoolOp) (p : BufferPool)
    (hfree : p.free = 0) :
    (runPool ops).checkedOut ≤ numBuffers ∧
    numBuffers = 512 ∧
    poolStep p PoolOp.acquire = p := by
  refine ⟨?_, rfl, ?_⟩
  · have h := runPool_sum ops
    omega
  · simp [poolStep, hfree]

/-- C5 witness: one acquisition from the start state, plus a blocked
acquisition on an exhausted pool. -/
theorem buffer_pool_bounded_witness :
    (runPool [PoolOp.acquire]).checkedOut ≤ numBuffers ∧
    numBuffers = 512 ∧
    poolStep ⟨0, 3⟩ PoolOp.acquire = ⟨0, 3⟩ :=
  buffer_pool_bounded [PoolOp.acquire] ⟨0, 3⟩ rfl

/-- C6: destroying the Session while a read command is in flight leaves
the command with a positive reference count of its own (the `Bindings`
handle, the copied handle of the command, minus the destroy release), and in
every trace `Bindings::read` can emit, no event — in particular no data
callback — follows the terminal (end-of-stream flagged) callback. -/
theorem destroy_inflight_safe (decode : Nat → List Nat) (cap : Nat)
    (r : ReadRun) (tr pre post : List ReadEvent) (e : ReadEvent)
    (h : bindingsRead decode cap r = .ok tr)
    (heq : tr = pre ++ e :: post)
    (hdone : e.isDone = true) :
    0 < readerRefs [LifeOp.bindingsCreate, LifeOp.commandAcquire,
      LifeOp.sessionDestroy] ∧
    post = [] := by
  refine ⟨by decide, ?_⟩
  exact terminal_is_last tr
    (bindingsRead_dropLast_not_done decode cap r tr h) pre e post heq hdone

/-- C6 witness: a concrete one-point run whose terminal callback is the
last event. -/
theorem destroy_inflight_safe_witness :
    0 < readerRefs [LifeOp.bindingsCreate, LifeOp.commandAcquire,
      LifeOp.sessionDestroy] ∧
    ([] : List ReadEvent) = [] :=
  destroy_inflight_safe (fun i => [i]) 1
    { args := ⟨.undef, .undef, .boolv true, .nullv, .nullv, .objv,
        .funcv, .funcv⟩,
      createThrows := false, initOutcome := .ok, ids := [5],
      readOutcome := .ok, failAfter := 0 }
    [.initCb okStatus 1, .dataCb [5] true okStatus]
    [.initCb okStatus 1] [] (.dataCb [5] true okStatus)
    (by rfl) (by rfl) (by rfl)

/-- C7: for `files` and `read` invocations with a non-null scale
argument, each zero-valued component of the parsed scale point is
replaced by 1, non-zero components are left unchanged, and the offset
argument is never altered. -/
theorem scale_clamped_offset_unchanged (s : EntwinePoint)
    (off : Option EntwinePoint) :
    filesParseScale (some s) = some (clampScale s) ∧
    readParseScale (some s) = some (clampScale s) ∧
    (s.x = 0 → (clampScale s).x = 1) ∧
    (s.x ≠ 0 → (clampScale s).x = s.x) ∧
    (s.y = 0 → (clampScale s).y = 1) ∧
    (s.y ≠ 0 → (clampScale s).y = s.y) ∧
    (s.z = 0 → (clampScale s).z = 1) ∧
    (s.z ≠ 0 → (clampScale s).z = s.z) ∧
    filesParseOffset off = off ∧
    readParseOffset off = off := by
  refine ⟨rfl, rfl, ?_, ?_, ?_, ?_, ?_, ?_, rfl, rfl⟩ <;>
    intro h <;> simp [clampScale, h]

/-- C7 witness: the clamp at the concrete scale point (0, 2, 3). -/
theorem scale_clamped_offset_unchanged_witness :
    (clampScale ⟨0, 2, 3⟩).x = 1 ∧
    (clampScale ⟨0, 2, 3⟩).y = 2 ∧
    filesParseOffset (some ⟨4, 5, 6⟩) = some ⟨4, 5, 6⟩ :=
  ⟨(scale_clamped_offset_unchanged ⟨0, 2, 3⟩ (some ⟨4, 5, 6⟩)).2.2.1 rfl,
    (scale_clamped_offset_unchanged ⟨0, 2, 3⟩
      (some ⟨4, 5, 6⟩)).2.2.2.2.2.1 (by norm_num),
    (scale_clamped_offset_unchanged ⟨0, 2, 3⟩
      (some ⟨4, 5, 6⟩)).2.2.2.2.2.2.2.2.1⟩

/-- Any successful `Bindings::global` call leaves the stage factory
installed. -/
theorem globalCall_ok_set (st0 st : GlobalState) (args : List JsVal)
    (h : globalCall st0 args = .ok st) : st.stageFactorySet = true := by
  unfold globalCall at h
  split at h
  · simp at h
  · split at h
    · simp at h
    · rw [← Except.ok.inj h]

/-- C8: after a successful first invocation of `Bindings::global`, any
later three-argument invocation throws the multiple-initialization
exception (it does not return a recoverable Status) and leaves the
already-initialized global state unchanged. -/
theorem global_reinit_throws (args0 args1 : List JsVal)
    (st : GlobalState)
    (h0 : globalCall initialGlobalState args0 = .ok st)
    (h1 : args1.length = 3) :
    globalRun st args1 = (st, some GlobalErr.multipleInit) := by
  have hset := globalCall_ok_set initialGlobalState st args0 h0
  simp [globalRun, globalCall, h1, hset]

/-- C8 witness: a concrete first initialization followed by a concrete
re-initialization attempt. -/
theorem global_reinit_throws_witness :
    globalRun
      { stageFactorySet := true, paths := [], cacheSize := some 0,
        arbiter := some "" }
      [JsVal.undef, JsVal.undef, JsVal.undef] =
      ({ stageFactorySet := true, paths := [], cacheSize := some 0,
          arbiter := some "" }, some GlobalErr.multipleInit) :=
  global_reinit_throws [JsVal.undef, JsVal.undef, JsVal.undef]
    [JsVal.undef, JsVal.undef, JsVal.undef]
    { stageFactorySet := true, paths := [], cacheSize := some 0,
      arbiter := some "" }
    (by rfl) (by rfl)

/-- C9: when the three arguments of `Bindings::global` all fail type
validation, the accumulated error message is non-empty but is never
checked or reported — initialization proceeds anyway with coerced or
empty values (empty path list, coerced cache size and arbiter string)
and the call succeeds, so no error reaches the caller. -/
theorem global_type_errors_ignored (a b c : JsVal)
    (ha : a.isArray = false) (hb : b.isNumber = false)
    (hc : c.isString = false) :
    globalErrMsg a b c ≠ "" ∧
    globalCall initialGlobalState [a, b, c] =
      .ok { stageFactorySet := true, paths := [],
            cacheSize := some (numberValue b),
            arbiter := some (stringValue c) } := by
  constructor
  · simp only [globalErrMsg, ha, hb, hc, Bool.not_false, if_true]
    decide
  · simp [globalCall, initialGlobalState,
      parsePathList_of_not_array a ha]

/-- C9 witness: all three arguments undefined. -/
theorem global_type_errors_ignored_witness :
    globalErrMsg JsVal.undef JsVal.undef JsVal.undef ≠ "" ∧
    globalCall initialGlobalState [JsVal.undef, JsVal.undef, JsVal.undef]
      = .ok { stageFactorySet := true, paths := [],
              cacheSize := some (numberValue JsVal.undef),
              arbiter := some (stringValue JsVal.undef) } :=
  global_type_errors_ignored JsVal.undef JsVal.undef JsVal.undef
    rfl rfl rfl
